import Mathlib

/-!
Verification of the drama-frontend episode feed against its code.

The definitions below are shallow embeddings of the TypeScript source:
  - src/components/feed-scroll.tsx   (checkIsLocked, handleTouchEnd, handleNext,
    handlePrevious, the scroll-settle handler)
  - src/components/video-player.tsx  (fetchWithRetry, handleEnded)
  - src/lib/api.ts                   (the error message thrown by ApiClient.request)
  - src/app/stories/[storyId]/story-client.tsx and the feed-page variants
    (handleUnlock, the unlock mutation lifecycle, localStorage persistence)
-/

namespace DramaFrontend

/-- Prefix test on character lists, used to model the JavaScript
String.prototype.includes substring test. -/
def charsPrefix : List Char → List Char → Bool
  | [], _ => true
  | _ :: _, [] => false
  | p :: ps, c :: cs => p == c && charsPrefix ps cs

/-- Substring occurrence test on character lists. -/
def charsContains (pat : List Char) : List Char → Bool
  | [] => pat.isEmpty
  | c :: rest => charsPrefix pat (c :: rest) || charsContains pat rest

/-- Model of the JavaScript test s.includes(pat). -/
def strContains (s pat : String) : Bool :=
  charsContains pat.toList s.toList

/-- Episode record, with the fields the feed code reads.  unlockCost and
tokenCost are optional because the code guards them with the nullish
coalescing operator. -/
structure Episode where
  episodeId : String
  sequenceNumber : Nat
  unlockCost : Option Nat
  tokenCost : Option Nat
  unlocked : Bool
deriving DecidableEq, Repr

/-! ## feed-scroll.tsx -/

/-- checkIsLocked from feed-scroll.tsx:
if episode.sequenceNumber is at most freeEpisodeCount the episode is free;
otherwise it is locked exactly when its id is not in the unlocked set. -/
def checkIsLocked (freeEpisodeCount : Nat) (unlockedSet : List String)
    (episode : Episode) : Bool :=
  if episode.sequenceNumber ≤ freeEpisodeCount then false
  else !(unlockedSet.contains episode.episodeId)

/-- handleTouchEnd from feed-scroll.tsx.  diff = touchStartY - touchEndY; a swipe
fires only when the absolute delta exceeds 50; swipe up advances when not at the
last index, swipe down goes back when not at index 0. -/
def handleTouchEnd (touchStartY touchEndY : Int) (numEpisodes currentIndex : Nat) : Nat :=
  if 50 < (touchStartY - touchEndY).natAbs then
    if 0 < touchStartY - touchEndY ∧ currentIndex < numEpisodes - 1 then currentIndex + 1
    else if touchStartY - touchEndY < 0 ∧ 0 < currentIndex then currentIndex - 1
    else currentIndex
  else currentIndex

/-- handleNext from feed-scroll.tsx. -/
def handleNext (numEpisodes currentIndex : Nat) : Nat :=
  if currentIndex < numEpisodes - 1 then currentIndex + 1 else currentIndex

/-- handlePrevious from feed-scroll.tsx. -/
def handlePrevious (currentIndex : Nat) : Nat :=
  if 0 < currentIndex then currentIndex - 1 else currentIndex

/-- Math.round of scrollTop / viewportHeight on naturals:
Math.round x = floor (x + 1/2), so round (s / h) = (2 s + h) / (2 h). -/
def jsRound (scrollTop viewportHeight : Nat) : Nat :=
  (2 * scrollTop + viewportHeight) / (2 * viewportHeight)

/-- The scroll-settle handler from feed-scroll.tsx: the candidate index
round (scrollTop / innerHeight) is adopted only when it differs from the
current index and lies inside the array bounds (the lower bound 0 is
automatic on naturals). -/
def handleScroll (viewportHeight scrollTop numEpisodes currentIndex : Nat) : Nat :=
  if jsRound scrollTop viewportHeight ≠ currentIndex ∧
      jsRound scrollTop viewportHeight < numEpisodes
  then jsRound scrollTop viewportHeight
  else currentIndex

/-! ## video-player.tsx -/

/-- Outcome of one playback-URL request attempt. -/
inductive FetchResult where
  | ok (videoUrl : String)
  | err (message : String)
deriving DecidableEq, Repr

/-- Final state of the fetch effect: videoUrl set, or the visible error state. -/
inductive FetchOutcome where
  | loaded (videoUrl : String)
  | failed (message : String)
deriving DecidableEq, Repr

/-- The fixed back-off used by fetchWithRetry in video-player.tsx. -/
def retryDelayMs : Nat := 500

/-- fetchWithRetry from video-player.tsx, as a function of the sequence of
attempt outcomes.  The first argument after attempts is the remaining retry
budget, the second the attempt number.  A failure is retried only when its
message contains the substring 401 and budget remains; the returned list
records the delay scheduled before each retry. -/
def fetchWithRetry (attempts : Nat → FetchResult) :
    Nat → Nat → FetchOutcome × List Nat
  | 0, attempt =>
    match attempts attempt with
    | FetchResult.ok url => (FetchOutcome.loaded url, [])
    | FetchResult.err msg => (FetchOutcome.failed msg, [])
  | retries + 1, attempt =>
    match attempts attempt with
    | FetchResult.ok url => (FetchOutcome.loaded url, [])
    | FetchResult.err msg =>
      if strContains msg "401" then
        let rest := fetchWithRetry attempts retries (attempt + 1)
        (rest.1, retryDelayMs :: rest.2)
      else (FetchOutcome.failed msg, [])

/-- The effect body calls fetchWithRetry with the default budget retries = 3,
starting at attempt 0. -/
def runPlaybackFetch (attempts : Nat → FetchResult) : FetchOutcome × List Nat :=
  fetchWithRetry attempts 3 0

/-- The fixed auto-advance delay scheduled by handleEnded in video-player.tsx. -/
def autoAdvanceDelayMs : Nat := 1000

/-- handleEnded from video-player.tsx: sets playing to false and schedules
onNext (which is handleNext of the feed) after the fixed delay.  Returned as
(playing, delay, index after the scheduled advance). -/
def handleEnded (numEpisodes currentIndex : Nat) : Bool × Nat × Nat :=
  (false, autoAdvanceDelayMs, handleNext numEpisodes currentIndex)

/-! ## lib/api.ts -/

/-- The message of the Error thrown by ApiClient.request on a non-ok response:
errorData.message when the JSON body supplies a non-empty one (the JavaScript
or-operator treats the empty string as falsy), otherwise the fallback
containing the numeric status. -/
def requestErrorMessage (status : Nat) (statusText : String)
    (bodyMessage : Option String) : String :=
  match bodyMessage with
  | some m => if m = "" then "API Error: " ++ toString status ++ " " ++ statusText else m
  | none => "API Error: " ++ toString status ++ " " ++ statusText

/-! ## story-client.tsx and the feed-page unlock flow -/

/-- The visible action taken by an unlock handler. -/
inductive UnlockAction where
  | redirectLogin
  | openPurchaseModal (pendingEpisodeId : String)
  | callUnlockEndpoint (episodeId : String)
  | noAction
deriving DecidableEq, Repr

/-- The cost computed by handleUnlock in story-client.tsx:
episode.unlockCost, else episode.tokenCost, else 10 (the nullish coalescing
chain, also used when the episode is not found). -/
def episodeCost (episodes : List Episode) (episodeId : String) : Nat :=
  match episodes.find? (fun e => e.episodeId == episodeId) with
  | some ep =>
    match ep.unlockCost with
    | some c => c
    | none =>
      match ep.tokenCost with
      | some c => c
      | none => 10
  | none => 10

/-- handleUnlock from story-client.tsx: redirect to login when unauthenticated;
when balance < cost, remember the episode as pending and open the purchase
modal; otherwise call the unlock endpoint. -/
def handleUnlock (isAuthenticated : Bool) (balance : Nat)
    (episodes : List Episode) (episodeId : String) : UnlockAction :=
  if !isAuthenticated then UnlockAction.redirectLogin
  else if balance < episodeCost episodes episodeId then
    UnlockAction.openPurchaseModal episodeId
  else UnlockAction.callUnlockEndpoint episodeId

/-- The cost computed by handleUnlock in the persisted feed-page variant:
episode.unlockCost, else 50. -/
def feedEpisodeCost (episodes : List Episode) (episodeId : String) : Nat :=
  match episodes.find? (fun e => e.episodeId == episodeId) with
  | some ep => ep.unlockCost.getD 50
  | none => 50

/-- handleUnlock from the persisted feed-page variant: redirect when
unauthenticated, silently return when story or user are missing, open the
purchase modal when balance < cost, otherwise call the unlock endpoint. -/
def feedHandleUnlock (isAuthenticated hasStory hasUser : Bool) (balance : Nat)
    (episodes : List Episode) (episodeId : String) : UnlockAction :=
  if !isAuthenticated then UnlockAction.redirectLogin
  else if !hasStory || !hasUser then UnlockAction.noAction
  else if balance < feedEpisodeCost episodes episodeId then
    UnlockAction.openPurchaseModal episodeId
  else UnlockAction.callUnlockEndpoint episodeId

/-! ## The optimistic unlock mutation (feed page, first variant)

State: the server narrative set of unlocked episode ids, and the local
optimistic set.  The derived unlocked set fed to FeedScroll is their union. -/

/-- unlockedEpisodeIds from the feed page: the narrative set unioned with the
optimistic set. -/
def unlockedEpisodeIds (narrative optimistic : Finset String) : Finset String :=
  narrative ∪ optimistic

/-- unlockMutation.onMutate: insert the episode id into the optimistic set. -/
def onMutateInsert (optimistic : Finset String) (episodeId : String) : Finset String :=
  insert episodeId optimistic

/-- unlockMutation.onError: delete the episode id from the optimistic set. -/
def onErrorRollback (optimistic : Finset String) (episodeId : String) : Finset String :=
  optimistic.erase episodeId

/-! ## The persisted feed-page variant (localStorage key story-id-unlocked) -/

/-- onMutate of the persisted variant: insert the id into the in-memory
optimistic set, and write the merge of the currently derived unlocked set with
the id under the localStorage key.  State is (optimistic, stored value),
where the stored value is none when the key is absent. -/
def onMutatePersist (server optimistic : Finset String)
    (_store : Option (Finset String)) (episodeId : String) :
    Finset String × Option (Finset String) :=
  (insert episodeId optimistic, some (insert episodeId (server ∪ optimistic)))

/-- onError of the persisted variant: delete the id from the in-memory
optimistic set only; the stored value is untouched. -/
def onErrorPersist (optimistic : Finset String)
    (store : Option (Finset String)) (episodeId : String) :
    Finset String × Option (Finset String) :=
  (optimistic.erase episodeId, store)

/-- A failed unlock in the persisted variant: onMutate followed by onError. -/
def failedUnlockPersist (server optimistic : Finset String)
    (store : Option (Finset String)) (episodeId : String) :
    Finset String × Option (Finset String) :=
  let afterMutate := onMutatePersist server optimistic store episodeId
  onErrorPersist afterMutate.1 afterMutate.2 episodeId

/-- The mount effect of the persisted variant: when the key is present, the
optimistic set is replaced by the stored set. -/
def mountLoadOptimistic (store : Option (Finset String))
    (optimistic : Finset String) : Finset String :=
  match store with
  | some stored => stored
  | none => optimistic

/-! ## Unfolding lemmas for fetchWithRetry -/

/-- A successful attempt ends the fetch at once, for any remaining budget. -/
lemma fetchWithRetry_ok (a : Nat → FetchResult) (r k : Nat) (u : String)
    (h : a k = FetchResult.ok u) :
    fetchWithRetry a r k = (FetchOutcome.loaded u, []) := by
  cases r <;> (unfold fetchWithRetry; rw [h])

/-- With the budget exhausted, any failure is terminal. -/
lemma fetchWithRetry_err_zero (a : Nat → FetchResult) (k : Nat) (m : String)
    (h : a k = FetchResult.err m) :
    fetchWithRetry a 0 k = (FetchOutcome.failed m, []) := by
  unfold fetchWithRetry; rw [h]

/-- With budget left, a failure whose message contains 401 is retried after the
fixed delay. -/
lemma fetchWithRetry_err_retry (a : Nat → FetchResult) (r k : Nat) (m : String)
    (h : a k = FetchResult.err m) (hc : strContains m "401" = true) :
    fetchWithRetry a (r + 1) k =
      ((fetchWithRetry a r (k + 1)).1,
        retryDelayMs :: (fetchWithRetry a r (k + 1)).2) := by
  conv_lhs => unfold fetchWithRetry
  rw [h]
  simp [hc]

/-- A failure whose message does not contain 401 is terminal, for any budget. -/
lemma fetchWithRetry_err_no401 (a : Nat → FetchResult) (r k : Nat) (m : String)
    (h : a k = FetchResult.err m) (hc : strContains m "401" = false) :
    fetchWithRetry a r k = (FetchOutcome.failed m, []) := by
  cases r <;> (unfold fetchWithRetry; rw [h]; try simp [hc])

/-! ## Claims -/

/-- C1: checkIsLocked returns false whenever sequenceNumber is at most
freeEpisodeCount, regardless of the unlocked set; otherwise it returns exactly
the negation of membership of the episode id in the unlocked set.  It is a
total Lean function on its arguments, so it has no error cases. -/
theorem checkIsLocked_spec (freeEpisodeCount : Nat) (unlockedSet : List String)
    (episode : Episode) :
    (episode.sequenceNumber ≤ freeEpisodeCount →
      checkIsLocked freeEpisodeCount unlockedSet episode = false) ∧
    (freeEpisodeCount < episode.sequenceNumber →
      checkIsLocked freeEpisodeCount unlockedSet episode
        = !(unlockedSet.contains episode.episodeId)) := by
  constructor
  · intro h
    unfold checkIsLocked
    rw [if_pos h]
  · intro h
    unfold checkIsLocked
    rw [if_neg (by omega)]

/-- Witness for C1 at concrete inputs: a free episode is unlocked, a paid one
outside the unlocked set is locked. -/
theorem checkIsLocked_spec_witness :
    checkIsLocked 3 ["a"] ⟨"e2", 2, none, none, false⟩ = false ∧
    checkIsLocked 3 ["a"] ⟨"e5", 5, none, none, false⟩ = !(["a"].contains "e5") :=
  ⟨(checkIsLocked_spec 3 ["a"] ⟨"e2", 2, none, none, false⟩).1 (by decide),
   (checkIsLocked_spec 3 ["a"] ⟨"e5", 5, none, none, false⟩).2 (by decide)⟩

/-- C2: with the default budget of 3 retries, a playback fetch that fails with
a 401 message on the first two attempts and succeeds on the third loads the
video, with the fixed 500 ms delay scheduled before each retry; a 401 failure
on every attempt ends in the visible error state after the three delayed
retries and no further retry; a non-401 failure is terminal at once. -/
theorem fetchWithRetry_spec :
    (∀ (a : Nat → FetchResult) (u m0 m1 : String),
        a 0 = FetchResult.err m0 → strContains m0 "401" = true →
        a 1 = FetchResult.err m1 → strContains m1 "401" = true →
        a 2 = FetchResult.ok u →
        runPlaybackFetch a = (FetchOutcome.loaded u, [retryDelayMs, retryDelayMs])) ∧
    (∀ (a : Nat → FetchResult) (msgs : Nat → String),
        (∀ k, a k = FetchResult.err (msgs k)) →
        (∀ k, strContains (msgs k) "401" = true) →
        runPlaybackFetch a =
          (FetchOutcome.failed (msgs 3), [retryDelayMs, retryDelayMs, retryDelayMs])) ∧
    (∀ (a : Nat → FetchResult) (m : String),
        a 0 = FetchResult.err m → strContains m "401" = false →
        runPlaybackFetch a = (FetchOutcome.failed m, [])) := by
  refine ⟨?_, ?_, ?_⟩
  · intro a u m0 m1 h0 h0c h1 h1c h2
    show fetchWithRetry a 3 0 = _
    rw [show fetchWithRetry a 3 0
          = ((fetchWithRetry a 2 1).1, retryDelayMs :: (fetchWithRetry a 2 1).2)
        from fetchWithRetry_err_retry a 2 0 m0 h0 h0c]
    rw [show fetchWithRetry a 2 1
          = ((fetchWithRetry a 1 2).1, retryDelayMs :: (fetchWithRetry a 1 2).2)
        from fetchWithRetry_err_retry a 1 1 m1 h1 h1c]
    rw [fetchWithRetry_ok a 1 2 u h2]
  · intro a msgs ha hc
    show fetchWithRetry a 3 0 = _
    rw [show fetchWithRetry a 3 0
          = ((fetchWithRetry a 2 1).1, retryDelayMs :: (fetchWithRetry a 2 1).2)
        from fetchWithRetry_err_retry a 2 0 (msgs 0) (ha 0) (hc 0)]
    rw [show fetchWithRetry a 2 1
          = ((fetchWithRetry a 1 2).1, retryDelayMs :: (fetchWithRetry a 1 2).2)
        from fetchWithRetry_err_retry a 1 1 (msgs 1) (ha 1) (hc 1)]
    rw [show fetchWithRetry a 1 2
          = ((fetchWithRetry a 0 3).1, retryDelayMs :: (fetchWithRetry a 0 3).2)
        from fetchWithRetry_err_retry a 0 2 (msgs 2) (ha 2) (hc 2)]
    rw [fetchWithRetry_err_zero a 3 (msgs 3) (ha 3)]
  · intro a m h0 hc
    show fetchWithRetry a 3 0 = _
    exact fetchWithRetry_err_no401 a 3 0 m h0 hc

/-- Attempt sequence failing with a 401 message twice, then succeeding. -/
def attemptsTwice401 : Nat → FetchResult := fun k =>
  if k < 2 then FetchResult.err "API Error: 401 Unauthorized"
  else FetchResult.ok "https://cdn.example/video.mp4"

/-- Witness for C2 at concrete attempt sequences. -/
theorem fetchWithRetry_spec_witness :
    runPlaybackFetch attemptsTwice401
      = (FetchOutcome.loaded "https://cdn.example/video.mp4", [retryDelayMs, retryDelayMs]) ∧
    runPlaybackFetch (fun _ => FetchResult.err "got 401")
      = (FetchOutcome.failed "got 401", [retryDelayMs, retryDelayMs, retryDelayMs]) ∧
    runPlaybackFetch (fun _ => FetchResult.err "Forbidden")
      = (FetchOutcome.failed "Forbidden", []) :=
  ⟨fetchWithRetry_spec.1 attemptsTwice401 "https://cdn.example/video.mp4"
      "API Error: 401 Unauthorized" "API Error: 401 Unauthorized" rfl rfl rfl rfl rfl,
   fetchWithRetry_spec.2.1 (fun _ => FetchResult.err "got 401") (fun _ => "got 401")
      (fun _ => rfl) (fun _ => rfl),
   fetchWithRetry_spec.2.2 (fun _ => FetchResult.err "Forbidden") "Forbidden" rfl rfl⟩

/-- C3: an authenticated unlock attempt with balance strictly below the episode
cost (unlockCost, else tokenCost, else the fixed default) records the episode
id as pending and opens the purchase modal, and does not call the unlock
endpoint; this holds for the story-client handler and for the persisted
feed-page handler (default cost 50 there). -/
theorem handleUnlock_insufficient_balance :
    (∀ (balance : Nat) (episodes : List Episode) (episodeId : String),
        balance < episodeCost episodes episodeId →
        handleUnlock true balance episodes episodeId
          = UnlockAction.openPurchaseModal episodeId) ∧
    (∀ (balance : Nat) (episodes : List Episode) (episodeId : String),
        balance < feedEpisodeCost episodes episodeId →
        feedHandleUnlock true true true balance episodes episodeId
          = UnlockAction.openPurchaseModal episodeId) := by
  constructor
  · intro b eps eid h
    simp [handleUnlock, h]
  · intro b eps eid h
    simp [feedHandleUnlock, h]

/-- Witness for C3: the spec scenario, balance 5 against cost 10. -/
theorem handleUnlock_insufficient_balance_witness :
    handleUnlock true 5 [⟨"ep4", 4, some 10, none, false⟩] "ep4"
      = UnlockAction.openPurchaseModal "ep4" ∧
    feedHandleUnlock true true true 5 [⟨"ep4", 4, some 10, none, false⟩] "ep4"
      = UnlockAction.openPurchaseModal "ep4" :=
  ⟨handleUnlock_insufficient_balance.1 5 [⟨"ep4", 4, some 10, none, false⟩] "ep4" (by decide),
   handleUnlock_insufficient_balance.2 5 [⟨"ep4", 4, some 10, none, false⟩] "ep4" (by decide)⟩

/-- C4: when an unlock mutation fails, the rollback in onError removes exactly
the optimistic entry inserted in onMutate, so the derived unlocked set equals
its value from before the attempt (for an episode that was not already in the
optimistic set, i.e. one the overlay showed as locked). -/
theorem unlock_failure_rollback (narrative optimistic : Finset String)
    (episodeId : String) (h : episodeId ∉ optimistic) :
    unlockedEpisodeIds narrative
        (onErrorRollback (onMutateInsert optimistic episodeId) episodeId)
      = unlockedEpisodeIds narrative optimistic := by
  unfold unlockedEpisodeIds onErrorRollback onMutateInsert
  rw [Finset.erase_insert h]

/-- Witness for C4 at concrete sets. -/
theorem unlock_failure_rollback_witness :
    unlockedEpisodeIds {"n1"} (onErrorRollback (onMutateInsert {"o1"} "e9") "e9")
      = unlockedEpisodeIds {"n1"} {"o1"} :=
  unlock_failure_rollback {"n1"} {"o1"} "e9" (by decide)

/-- C5: the derived unlocked set is monotone under every operation of the
session, each taken as a whole: an unlock success only inserts; a failed
unlock (insert then rollback of a locked episode) leaves the set unchanged;
a purchase touches only the balance; a narrative refetch that returns a
superset keeps every id; and a failed unlock of x never removes any other id,
unconditionally. -/
theorem unlocked_set_monotone :
    (∀ (narrative optimistic : Finset String) (episodeId : String),
        unlockedEpisodeIds narrative optimistic ⊆
          unlockedEpisodeIds narrative (onMutateInsert optimistic episodeId)) ∧
    (∀ (narrative optimistic : Finset String) (episodeId : String),
        episodeId ∉ optimistic →
        unlockedEpisodeIds narrative optimistic ⊆
          unlockedEpisodeIds narrative
            (onErrorRollback (onMutateInsert optimistic episodeId) episodeId)) ∧
    (∀ (narrative narrativeNew optimistic : Finset String),
        narrative ⊆ narrativeNew →
        unlockedEpisodeIds narrative optimistic ⊆
          unlockedEpisodeIds narrativeNew optimistic) ∧
    (∀ (narrative optimistic : Finset String) (x y : String),
        y ≠ x → y ∈ unlockedEpisodeIds narrative optimistic →
        y ∈ unlockedEpisodeIds narrative
          (onErrorRollback (onMutateInsert optimistic x) x)) := by
  refine ⟨?_, ?_, ?_, ?_⟩
  · intro narr opt eid
    exact Finset.union_subset_union subset_rfl (Finset.subset_insert eid opt)
  · intro narr opt eid h
    unfold unlockedEpisodeIds onErrorRollback onMutateInsert
    rw [Finset.erase_insert h]
  · intro narr narrNew opt h
    exact Finset.union_subset_union h subset_rfl
  · intro narr opt x y hyx hy
    unfold unlockedEpisodeIds onErrorRollback onMutateInsert at *
    rcases Finset.mem_union.mp hy with hn | ho
    · exact Finset.mem_union.mpr (Or.inl hn)
    · exact Finset.mem_union.mpr
        (Or.inr (Finset.mem_erase.mpr ⟨hyx, Finset.mem_insert_of_mem ho⟩))

/-- Witness for C5 at concrete sets. -/
theorem unlocked_set_monotone_witness :
    unlockedEpisodeIds {"n1"} {"o1"} ⊆
      unlockedEpisodeIds {"n1"} (onErrorRollback (onMutateInsert {"o1"} "e9") "e9") ∧
    unlockedEpisodeIds {"n1"} {"o1"} ⊆ unlockedEpisodeIds {"n1", "n2"} {"o1"} ∧
    "o1" ∈ unlockedEpisodeIds {"n1"} (onErrorRollback (onMutateInsert {"o1"} "e9") "e9") :=
  ⟨unlocked_set_monotone.2.1 {"n1"} {"o1"} "e9" (by decide),
   unlocked_set_monotone.2.2.1 {"n1"} {"n1", "n2"} {"o1"} (by decide),
   unlocked_set_monotone.2.2.2 {"n1"} {"o1"} "e9" "o1" (by decide) (by decide)⟩

/-- C6: a swipe whose vertical delta exceeds 50 pixels advances the index by
one upward when not at the last episode, and moves it back by one downward
when not at index 0; past either bound it is a no-op, and a delta of at most
50 pixels (such as 40) leaves the index unchanged. -/
theorem handleTouchEnd_spec (s e : Int) (numEpisodes i : Nat) :
    (50 < s - e → i + 1 < numEpisodes → handleTouchEnd s e numEpisodes i = i + 1) ∧
    (50 < s - e → numEpisodes ≤ i + 1 → handleTouchEnd s e numEpisodes i = i) ∧
    (50 < e - s → 0 < i → handleTouchEnd s e numEpisodes i = i - 1) ∧
    (50 < e - s → handleTouchEnd s e numEpisodes 0 = 0) ∧
    ((s - e).natAbs ≤ 50 → handleTouchEnd s e numEpisodes i = i) := by
  refine ⟨?_, ?_, ?_, ?_, ?_⟩ <;>
    · intros
      unfold handleTouchEnd
      split_ifs <;> omega

/-- Witness for C6: the spec scenario with three episodes at index 1, a 60 px
swipe up advances to 2, a 40 px delta does nothing, and bounds are respected. -/
theorem handleTouchEnd_spec_witness :
    handleTouchEnd 500 440 3 1 = 2 ∧
    handleTouchEnd 500 560 3 1 = 0 ∧
    handleTouchEnd 500 440 3 2 = 2 ∧
    handleTouchEnd 500 560 3 0 = 0 ∧
    handleTouchEnd 500 460 3 1 = 1 :=
  ⟨(handleTouchEnd_spec 500 440 3 1).1 (by decide) (by decide),
   (handleTouchEnd_spec 500 560 3 1).2.2.1 (by decide) (by decide),
   (handleTouchEnd_spec 500 440 3 2).2.1 (by decide) (by decide),
   (handleTouchEnd_spec 500 560 3 0).2.2.2.1 (by decide),
   (handleTouchEnd_spec 500 460 3 1).2.2.2.2 (by decide)⟩

/-- C7: on the ended event the player sets playing to false and schedules the
advance after the fixed 1000 ms delay; the scheduled advance increments the
index by exactly one, unless the current episode is the last, in which case
the index is unchanged. -/
theorem handleEnded_spec (numEpisodes i : Nat) :
    (handleEnded numEpisodes i).1 = false ∧
    (handleEnded numEpisodes i).2.1 = autoAdvanceDelayMs ∧
    (i + 1 < numEpisodes → (handleEnded numEpisodes i).2.2 = i + 1) ∧
    (i + 1 = numEpisodes → (handleEnded numEpisodes i).2.2 = i) := by
  refine ⟨rfl, rfl, ?_, ?_⟩
  · intro h
    show handleNext numEpisodes i = i + 1
    unfold handleNext
    rw [if_pos (by omega)]
  · intro h
    show handleNext numEpisodes i = i
    unfold handleNext
    rw [if_neg (by omega)]

/-- Witness for C7: advancing from index 1 of 3, and staying at the last
index 2 of 3. -/
theorem handleEnded_spec_witness :
    (handleEnded 3 1).2.2 = 2 ∧ (handleEnded 3 2).2.2 = 2 :=
  ⟨(handleEnded_spec 3 1).2.2.1 (by decide), (handleEnded_spec 3 2).2.2.2 (by decide)⟩

/-- C8: starting from an in-bounds index, every index-changing operation of
the feed (next, previous, swipe, scroll-settle) yields an in-bounds index; a
previous action at index 0 keeps index 0; and the scroll handler never adopts
an out-of-range candidate. -/
theorem feed_index_clamped :
    (∀ numEpisodes i, i < numEpisodes → handleNext numEpisodes i < numEpisodes) ∧
    (∀ numEpisodes i, i < numEpisodes → handlePrevious i < numEpisodes) ∧
    handlePrevious 0 = 0 ∧
    (∀ (s e : Int) (numEpisodes i : Nat), i < numEpisodes →
        handleTouchEnd s e numEpisodes i < numEpisodes) ∧
    (∀ viewportHeight scrollTop numEpisodes i, i < numEpisodes →
        handleScroll viewportHeight scrollTop numEpisodes i < numEpisodes) ∧
    (∀ viewportHeight scrollTop numEpisodes i,
        numEpisodes ≤ jsRound scrollTop viewportHeight →
        handleScroll viewportHeight scrollTop numEpisodes i = i) := by
  refine ⟨?_, ?_, ?_, ?_, ?_, ?_⟩
  · intro len i h
    unfold handleNext
    split_ifs <;> omega
  · intro len i h
    unfold handlePrevious
    split_ifs <;> omega
  · rfl
  · intro s e len i h
    unfold handleTouchEnd
    split_ifs <;> omega
  · intro vh st len i h
    unfold handleScroll
    split_ifs <;> omega
  · intro vh st len i h
    unfold handleScroll
    split_ifs <;> omega

/-- Witness for C8 at concrete indices and scroll geometry. -/
theorem feed_index_clamped_witness :
    handleNext 3 2 < 3 ∧
    handlePrevious 1 < 3 ∧
    handleTouchEnd 500 440 3 2 < 3 ∧
    handleScroll 100 450 3 0 < 3 ∧
    handleScroll 100 950 3 1 = 1 :=
  ⟨feed_index_clamped.1 3 2 (by decide),
   feed_index_clamped.2.1 3 1 (by decide),
   feed_index_clamped.2.2.2.1 500 440 3 2 (by decide),
   feed_index_clamped.2.2.2.2.1 100 450 3 0 (by decide),
   feed_index_clamped.2.2.2.2.2 100 950 3 1 (by decide)⟩

/-- C9: the retry decision looks only at the substring 401 of the error
message, not at the HTTP status: with budget left, any failure whose message
contains 401 is retried; a 401 response whose JSON body supplies a non-empty
message produces exactly that message, and when that message does not contain
401 the fetch is terminal at once with no retry. -/
theorem retry_decision_by_message_substring :
    (∀ (a : Nat → FetchResult) (r k : Nat) (m : String),
        a k = FetchResult.err m → strContains m "401" = true →
        fetchWithRetry a (r + 1) k =
          ((fetchWithRetry a r (k + 1)).1,
            retryDelayMs :: (fetchWithRetry a r (k + 1)).2)) ∧
    (∀ (statusText m : String), m ≠ "" →
        requestErrorMessage 401 statusText (some m) = m) ∧
    (∀ (a : Nat → FetchResult) (r k : Nat) (m : String),
        a k = FetchResult.err m → strContains m "401" = false →
        fetchWithRetry a r k = (FetchOutcome.failed m, [])) ∧
    (∀ (a : Nat → FetchResult) (statusText m : String),
        m ≠ "" → strContains m "401" = false →
        a 0 = FetchResult.err (requestErrorMessage 401 statusText (some m)) →
        runPlaybackFetch a = (FetchOutcome.failed m, [])) := by
  refine ⟨fetchWithRetry_err_retry, ?_, fetchWithRetry_err_no401, ?_⟩
  · intro st m hm
    simp [requestErrorMessage, hm]
  · intro a st m hm hc h0
    have hmsg : requestErrorMessage 401 st (some m) = m := by
      simp [requestErrorMessage, hm]
    rw [hmsg] at h0
    show fetchWithRetry a 3 0 = _
    exact fetchWithRetry_err_no401 a 3 0 m h0 hc

/-- Attempt sequence always failing with a message that contains 401. -/
def attemptsAlways401 : Nat → FetchResult := fun _ =>
  FetchResult.err "please retry 401"

/-- Attempt sequence always failing with the body-supplied message of a 401
response whose message does not mention the status code. -/
def attemptsBodyMessage : Nat → FetchResult := fun _ =>
  FetchResult.err (requestErrorMessage 401 "Unauthorized" (some "Invalid token"))

/-- Witness for C9: a message containing 401 is retried once with the fixed
delay; a 401 whose body message is Invalid token yields that message and is
terminal with no retry. -/
theorem retry_decision_by_message_substring_witness :
    fetchWithRetry attemptsAlways401 1 0
      = (FetchOutcome.failed "please retry 401", [retryDelayMs]) ∧
    requestErrorMessage 401 "Unauthorized" (some "Invalid token") = "Invalid token" ∧
    fetchWithRetry (fun _ => FetchResult.err "Invalid token") 3 0
      = (FetchOutcome.failed "Invalid token", []) ∧
    runPlaybackFetch attemptsBodyMessage = (FetchOutcome.failed "Invalid token", []) :=
  ⟨(retry_decision_by_message_substring.1 attemptsAlways401 0 0 "please retry 401"
      rfl rfl).trans rfl,
   retry_decision_by_message_substring.2.1 "Unauthorized" "Invalid token" (by decide),
   retry_decision_by_message_substring.2.2.1 (fun _ => FetchResult.err "Invalid token")
      3 0 "Invalid token" rfl rfl,
   retry_decision_by_message_substring.2.2.2 attemptsBodyMessage "Unauthorized"
      "Invalid token" (by decide) rfl rfl⟩

/-- C10: in the persisted feed-page variant, after a failed unlock the episode
id is gone from the in-memory optimistic set, but the localStorage entry
written by onMutate still holds it, and the mount effect loads it back into
the optimistic set, so the episode appears unlocked after a reload. -/
theorem persisted_unlock_survives_failure (server optimistic : Finset String)
    (store : Option (Finset String)) (episodeId : String) :
    episodeId ∉ (failedUnlockPersist server optimistic store episodeId).1 ∧
    (failedUnlockPersist server optimistic store episodeId).2
      = some (insert episodeId (server ∪ optimistic)) ∧
    episodeId ∈ mountLoadOptimistic
        (failedUnlockPersist server optimistic store episodeId).2
        (failedUnlockPersist server optimistic store episodeId).1 := by
  refine ⟨?_, rfl, ?_⟩
  · simp [failedUnlockPersist, onErrorPersist, onMutatePersist]
  · simp [failedUnlockPersist, onErrorPersist, onMutatePersist, mountLoadOptimistic]

end DramaFrontend
